import Mathlib

/-!
Verification development for the langoustine_mcp rule-memory service.

The definitions below are a shallow embedding of the TypeScript sources:

* `src/llm/embedding-client.ts`   — `OpenAIEmbeddingClient.generateEmbedding`
  (retry loop with exponential backoff);
* `src/repos/rules-repo.ts`       — `SQLiteRulesRepo.createRule`,
  `findRuleById`, `findSimilarRules`;
* `src/repos/instructions-repo.ts`— `SQLiteInstructionsRepo`;
* `src/tools/rememberDeveloperInstruction.ts` — the intake pipeline handler;
* `src/tools/getRelevantRules.ts` — the retrieval handler.

Modelling conventions:

* JS numbers that hold vector components, scores and thresholds are
  modelled as `Rat`; millisecond delays and `maxResults` as `Int`
  (the configuration and the call sites only ever use integers).
* A JS value that may be `undefined`/`null` is an `Option`.
  Template-string interpolation renders `undefined` as `"undefined"`
  and `null` as `"null"`, exactly as in JS.
* The SQLite database is a pair of tables (lists of rows) plus the
  auto-increment counters.  `CURRENT_TIMESTAMP` is abstracted as `0`
  (no claim mentions timestamps).
* Outbound calls (OpenAI, sqlite) are parametrised by the outcome the
  environment produces: a call either returns a value or throws with a
  message (`Outcome`).  The vector-distance primitive of the storage
  engine (`vec_distance_cosine`) is an explicit function parameter
  `dist`, as the spec treats it as a black-box capability.
-/

namespace Langoustine

/-- Outcome of an awaited call: it either resolves with a value or
rejects/throws with an error message (we assume thrown values are
`Error`s carrying their message, as the handlers do). -/
inductive Outcome (α : Type) where
  | ok (a : α)
  | thrown (msg : String)
deriving DecidableEq

/-- JS template interpolation of an optional (`field?: string`) value:
`undefined` renders as the string "undefined". -/
def showOptUndefined : Option String → String
  | some s => s
  | none => "undefined"

/-- JS template interpolation of a nullable (`string | null`) value:
`null` renders as the string "null". -/
def showOptNull : Option String → String
  | some s => s
  | none => "null"

/-- JS `String.prototype.trim`: drop leading and trailing whitespace
(modelled structurally on the character list so that it computes). -/
def jsTrim (s : String) : String :=
  ⟨((s.data.dropWhile Char.isWhitespace).reverse.dropWhile
      Char.isWhitespace).reverse⟩

/-- JS `x || y` on an optional string: `undefined` and the empty
string are falsy. -/
def jsOrElse (x : Option String) (y : String) : String :=
  match x with
  | some s => if s = "" then y else s
  | none => y

/-! ## Embedding generator (`src/llm/embedding-client.ts`) -/

/-- `EmbeddingResult` from `embedding-client.ts`: `success`, optional
`embedding` (a `Float32Array`, modelled as `List Rat`), optional
`error` message. -/
structure EmbeddingResult where
  success : Bool
  embedding : Option (List Rat)
  error : Option String
deriving DecidableEq

/-- One attempt of the provider call `openai.embeddings.create`:
either the awaited promise rejects (`throws`) or it resolves with a
response whose `data` array is modelled by the list of embeddings it
carries (`response.data[0]?.embedding` is the head of that list). -/
inductive ProviderResponse where
  | throws (msg : String)
  | returns (data : List (List Rat))
deriving DecidableEq

/-- Observable trace of one `generateEmbedding` call: the returned
result, how many provider attempts were made, and the sleeps (ms)
performed between attempts, in order. -/
structure EmbeddingCallTrace where
  result : EmbeddingResult
  attempts : Nat
  delays : List Int
deriving DecidableEq

/-- The failure message built at lines 105 and 122 of
`embedding-client.ts`. -/
def exhaustedMsg (totalAttempts : Nat) (lastError : String) : String :=
  "Failed to generate embedding after " ++ toString totalAttempts ++
    " attempts. Last error: " ++ lastError

/-- The invalid-response message at line 91 of `embedding-client.ts`. -/
def invalidFormatMsg : String :=
  "Invalid embedding response format from OpenAI API"

/-- Body of the `for (let attempt = 0; attempt <= effectiveMaxRetries; attempt++)`
loop of `generateEmbedding`.  `fuel` is the number of loop iterations
still available (`effectiveMaxRetries + 1 - attempt`); the `fuel = 0`
case is the return after the loop (lines 120–123), which carries
`lastError`. -/
def runAttempts (provider : Nat → ProviderResponse) (retryDelay : Int)
    (emr : Nat) : Nat → Nat → Option String → EmbeddingCallTrace
  | _attempt, 0, lastError =>
    { result :=
        { success := false, embedding := none,
          error := some (exhaustedMsg (emr + 1)
            (jsOrElse lastError "Unknown error")) },
      attempts := 0, delays := [] }
  | attempt, fuel + 1, _lastError =>
    match provider attempt with
    | .returns data =>
      match data.head? with
      | none =>
        { result := { success := false, embedding := none,
                      error := some invalidFormatMsg },
          attempts := 1, delays := [] }
      | some e =>
        { result := { success := true, embedding := some e, error := none },
          attempts := 1, delays := [] }
    | .throws msg =>
      if attempt = emr then
        { result := { success := false, embedding := none,
                      error := some (exhaustedMsg (emr + 1) msg) },
          attempts := 1, delays := [] }
      else
        let rest := runAttempts provider retryDelay emr (attempt + 1) fuel (some msg)
        { result := rest.result, attempts := rest.attempts + 1,
          delays := (retryDelay * 2 ^ attempt) :: rest.delays }

/-- `Math.max(0, this.maxRetries)` (line 77). -/
def effectiveMaxRetries (maxRetries : Int) : Nat := (max 0 maxRetries).toNat

/-- `OpenAIEmbeddingClient.generateEmbedding`, parametrised by the
behaviour of the provider on each attempt. -/
def generateEmbedding (provider : Nat → ProviderResponse)
    (maxRetries : Int) (retryDelay : Int) : EmbeddingCallTrace :=
  let emr := effectiveMaxRetries maxRetries
  runAttempts provider retryDelay emr 0 (emr + 1) none

/-! ## Data model (`src/types.ts`, sqlite schema) -/

/-- A row of the `user_instructions` table:
`(id, instruction, context, inserted_at, rule_id)`. -/
structure InstructionRow where
  id : Nat
  instruction : String
  context : String
  inserted_at : Nat
  rule_id : Option Nat
deriving DecidableEq

/-- A row of the `rules` table:
`(id, rule_text, category, context, relevance_score, embedding,
created_from_instruction_id, last_applied, instructions_count,
inserted_at)`.  `relevance_score` defaults to `1.0` and `last_applied`
is never set by the core. -/
structure RuleRow where
  id : Nat
  rule_text : String
  category : String
  context : String
  relevance_score : Option Rat
  embedding : List Rat
  created_from_instruction_id : Option Nat
  last_applied : Option Nat
  instructions_count : Nat
  inserted_at : Nat
deriving DecidableEq

/-- The runtime object returned by `findRuleById` (the `Rule` type of
`src/types.ts`, plus the `embedding` property of the raw row object:
the SELECT of `findRuleById` does not include the `embedding` column,
so that property is absent — `none` — on every returned object). -/
structure Rule where
  id : Nat
  rule_text : String
  category : String
  context : String
  relevance_score : Option Rat
  created_from_instruction_id : Option Nat
  last_applied : Option Nat
  instructions_count : Nat
  inserted_at : Nat
  embedding : Option (List Rat)
deriving DecidableEq

/-- The `RelevantRule` objects produced by the `findSimilarRules`
query: the same projection as `findRuleById` with `relevance_score`
replaced by the computed similarity. -/
structure RelevantRule where
  id : Nat
  rule_text : String
  category : String
  context : String
  relevance_score : Rat
  created_from_instruction_id : Option Nat
  last_applied : Option Nat
  instructions_count : Nat
  inserted_at : Nat
deriving DecidableEq

/-- The in-memory database: both tables plus the sqlite rowid
counters. -/
structure Db where
  instructions : List InstructionRow
  rules : List RuleRow
  nextInstructionId : Nat
  nextRuleId : Nat
deriving DecidableEq

/-- Well-formedness of the auto-increment counters: every existing row
id is below the next rowid (always true of a real sqlite handle). -/
def DbWf (db : Db) : Prop :=
  (∀ r ∈ db.rules, r.id < db.nextRuleId) ∧
    (∀ i ∈ db.instructions, i.id < db.nextInstructionId)

instance (db : Db) : Decidable (DbWf db) := by
  unfold DbWf; infer_instance

/-! ## Instruction store (`src/repos/instructions-repo.ts`) -/

/-- `findInstructionById`. -/
def findInstructionById (db : Db) (id : Nat) : Option InstructionRow :=
  db.instructions.find? (fun r => r.id == id)

/-- Placeholder for the value of a non-null assertion (`!`) that can
never fire; see the uses below, which are proven unreachable. -/
def undefinedInstruction : InstructionRow :=
  { id := 0, instruction := "", context := "", inserted_at := 0, rule_id := none }

/-- `createInstruction`: INSERT with `rule_id` NULL, then re-read the
row by its fresh rowid (`findInstructionById(instructionId)!`). -/
def createInstruction (db : Db) (instruction context : String) :
    InstructionRow × Db :=
  let row : InstructionRow :=
    { id := db.nextInstructionId, instruction := instruction,
      context := context, inserted_at := 0, rule_id := none }
  let db1 : Db :=
    { db with instructions := db.instructions ++ [row],
              nextInstructionId := db.nextInstructionId + 1 }
  ((findInstructionById db1 row.id).getD undefinedInstruction, db1)

/-- `updateInstructionRuleId`: UPDATE `rule_id` on the matching row. -/
def updateInstructionRuleId (db : Db) (instructionId ruleId : Nat) : Db :=
  { db with
    instructions := db.instructions.map (fun r =>
      if r.id == instructionId then { r with rule_id := some ruleId } else r) }

/-! ## Rule store (`src/repos/rules-repo.ts`) -/

/-- `CreateRuleParams`. -/
structure CreateRuleParams where
  ruleText : String
  category : String
  context : String
  createdFromInstructionId : Nat
deriving DecidableEq

/-- Projection performed by the SELECT of `findRuleById`: every column
except `embedding` (whose property is therefore absent on the returned
object). -/
def projRule (r : RuleRow) : Rule :=
  { id := r.id, rule_text := r.rule_text, category := r.category,
    context := r.context, relevance_score := r.relevance_score,
    created_from_instruction_id := r.created_from_instruction_id,
    last_applied := r.last_applied,
    instructions_count := r.instructions_count,
    inserted_at := r.inserted_at, embedding := none }

/-- `findRuleById`. -/
def findRuleById (db : Db) (id : Nat) : Option Rule :=
  (db.rules.find? (fun r => r.id == id)).map projRule

/-- Placeholder for the value of the non-null assertion at the end of
`createRule`; proven unreachable below. -/
def undefinedRule : Rule :=
  { id := 0, rule_text := "", category := "", context := "",
    relevance_score := none, created_from_instruction_id := none,
    last_applied := none, instructions_count := 0, inserted_at := 0,
    embedding := none }

/-- `SQLiteRulesRepo.createRule`, applied to the result the embedding
client produced for `ruleText`.  `insertFault` injects a sqlite error
thrown by the INSERT (`none` when the insert succeeds).  Mirrors the
source: `if (!embeddingResult.success || !embeddingResult.embedding)`
throw the wrapping error; otherwise INSERT the row with
`instructions_count = 1` and return `findRuleById(ruleId)!`. -/
def createRule (db : Db) (embeddingResult : EmbeddingResult)
    (insertFault : Option String) (params : CreateRuleParams) :
    Except String (Rule × Db) :=
  match embeddingResult.success, embeddingResult.embedding with
  | true, some e =>
    match insertFault with
    | some m => .error m
    | none =>
      let row : RuleRow :=
        { id := db.nextRuleId, rule_text := params.ruleText,
          category := params.category, context := params.context,
          relevance_score := some 1, embedding := e,
          created_from_instruction_id := some params.createdFromInstructionId,
          last_applied := none, instructions_count := 1, inserted_at := 0 }
      let db1 : Db :=
        { db with rules := db.rules ++ [row], nextRuleId := db.nextRuleId + 1 }
      .ok ((findRuleById db1 row.id).getD undefinedRule, db1)
  | _, _ =>
    .error ("Failed to generate embedding: " ++
      showOptUndefined embeddingResult.error)

/-- The rule table after a `createRule` call (unchanged when the call
threw). -/
def rulesAfterCreateRule (db : Db) (embeddingResult : EmbeddingResult)
    (insertFault : Option String) (params : CreateRuleParams) : List RuleRow :=
  match createRule db embeddingResult insertFault params with
  | .ok (_, db1) => db1.rules
  | .error _ => db.rules

/-- The computed `relevance_score` column of the `findSimilarRules`
query: `1 - vec_distance_cosine(embedding, query)`, with the distance
primitive `dist` supplied by the storage engine. -/
def scoreRow (dist : List Rat → List Rat → Rat) (q : List Rat)
    (r : RuleRow) : RelevantRule :=
  { id := r.id, rule_text := r.rule_text, category := r.category,
    context := r.context, relevance_score := 1 - dist r.embedding q,
    created_from_instruction_id := r.created_from_instruction_id,
    last_applied := r.last_applied,
    instructions_count := r.instructions_count,
    inserted_at := r.inserted_at }

/-- `SQLiteRulesRepo.findSimilarRules`: score every row, keep the rows
WHERE `relevance_score >= threshold`, ORDER BY `relevance_score` DESC,
LIMIT `limit`. -/
def findSimilarRules (dist : List Rat → List Rat → Rat)
    (rules : List RuleRow) (q : List Rat) (limit : Nat) (threshold : Rat) :
    List RelevantRule :=
  (((rules.map (scoreRow dist q)).filter
      (fun rr => decide (threshold ≤ rr.relevance_score))).mergeSort
    (fun a b => decide (b.relevance_score ≤ a.relevance_score))).take limit

/-! ## Classifier result (`src/llm/client.ts`) -/

/-- The rule draft returned by a `Generalizable` verdict. -/
structure RuleDraft where
  rule_text : String
  category : String
deriving DecidableEq

/-- `RuleGenerationResult`: `success`, nullable `rule`, nullable
`reason` (explains non-generalizability), nullable `error`. -/
structure RuleGenerationResult where
  success : Bool
  rule : Option RuleDraft
  reason : Option String
  error : Option String
deriving DecidableEq

/-! ## Tool handlers -/

/-- One element of the `content` array of a tool response; `ctype` is
the `type` field, always the string "text". -/
structure ContentItem where
  ctype : String
  text : String
deriving DecidableEq

/-- Shorthand for the `{ type: "text", text }` objects the handlers
build. -/
def mkText (t : String) : ContentItem := { ctype := "text", text := t }

/-- The environment of one `rememberDeveloperInstruction` request:
what each outbound call would do if it is reached.  `thrown`/`some`
values inject faults. -/
structure RememberEnv where
  genRule : Outcome RuleGenerationResult
  createInstructionFault : Option String
  embedding : Outcome EmbeddingResult
  ruleInsertFault : Option String
  updateFault : Option String
deriving DecidableEq

/-- The `rulesRepo.createRule` call of the pipeline: first await the
embedding client (whose promise may reject), then run `createRule`. -/
def createRuleCall (env : RememberEnv) (db : Db) (params : CreateRuleParams) :
    Except String (Rule × Db) :=
  match env.embedding with
  | .thrown m => .error m
  | .ok embRes => createRule db embRes env.ruleInsertFault params

/-- Body of `rememberDeveloperInstructionHandler` inside the outermost
`try`: a `.error` result is an exception that reaches the outer
`catch`.  The inner `try`/`catch` blocks around `createInstruction`
and around `createRule`/`updateInstructionRuleId` are the inner
`match`es returning `.ok` failure messages. -/
def rememberBody (env : RememberEnv) (instruction context : String)
    (db : Db) : Except String (List ContentItem × Db) :=
  match env.genRule with
  | .thrown m => .error m
  | .ok ruleGenerationResult =>
    match ruleGenerationResult.success, ruleGenerationResult.rule with
    | true, some draft =>
      match env.createInstructionFault with
      | some m => .ok ([mkText ("Failed to create instruction: " ++ m)], db)
      | none =>
        let created := createInstruction db instruction context
        let createdInstruction := created.1
        let db1 := created.2
        match createRuleCall env db1
            { ruleText := draft.rule_text, category := draft.category,
              context := context,
              createdFromInstructionId := createdInstruction.id } with
        | .error m =>
          .ok ([mkText ("Failed to create rule with embedding: " ++ m)], db1)
        | .ok (rule, db2) =>
          match env.updateFault with
          | some m =>
            .ok ([mkText ("Failed to create rule with embedding: " ++ m)], db2)
          | none =>
            let db3 := updateInstructionRuleId db2 createdInstruction.id rule.id
            .ok ([mkText ("Instruction processed successfully. Generated rule: \"" ++
                    draft.rule_text ++ "\" (category: " ++ draft.category ++
                    "). Rule ID: " ++ toString rule.id ++ ", Instruction ID: " ++
                    toString createdInstruction.id)], db3)
    | _, _ =>
      .ok ([mkText ("Failed to generate abstract rule: " ++
              showOptNull ruleGenerationResult.error)], db)

/-- `rememberDeveloperInstructionHandler`: the body wrapped in the
outermost `catch`, which converts any uncaught exception into the
labelled `Unexpected error` message. -/
def rememberDeveloperInstructionHandler (env : RememberEnv)
    (instruction context : String) (db : Db) : List ContentItem × Db :=
  match rememberBody env instruction context db with
  | .ok r => r
  | .error m => ([mkText ("Unexpected error: " ++ m)], db)

/-! ## Retrieval handler (`src/tools/getRelevantRules.ts`) -/

/-- The parameter object of `getRelevantRules`; the optional fields
default to `5` and `0` by destructuring. -/
structure GetParams where
  taskDescription : String
  maxResults : Option Int
  similarityThreshold : Option Rat
deriving DecidableEq

/-- The environment of one `getRelevantRules` request: the embedding
call outcome, the storage engine distance primitive, and an optional
fault thrown by the store query. -/
structure RetrievalEnv where
  embedding : Outcome EmbeddingResult
  dist : List Rat → List Rat → Rat
  queryFault : Option String

/-- External calls performed by one retrieval request. -/
structure RetrievalTrace where
  embeddingCalls : Nat
  storeQueries : Nat
deriving DecidableEq

/-- Body of `getRelevantRulesHandler` inside the outermost `try`; also
returns the trace of external calls made so far. -/
def getRelevantRulesBody (env : RetrievalEnv) (params : GetParams)
    (db : Db) : Except String (List ContentItem) × RetrievalTrace :=
  let taskDescription := params.taskDescription
  let maxResults := params.maxResults.getD 5
  let similarityThreshold := params.similarityThreshold.getD 0
  if jsTrim taskDescription = "" then
    (.ok [mkText "Error: taskDescription cannot be empty"],
      { embeddingCalls := 0, storeQueries := 0 })
  else if maxResults < 1 ∨ maxResults > 100 then
    (.ok [mkText "Error: maxResults must be between 1 and 100"],
      { embeddingCalls := 0, storeQueries := 0 })
  else if similarityThreshold < -1 ∨ similarityThreshold > 1 then
    (.ok [mkText "Error: similarityThreshold must be between -1 and 1"],
      { embeddingCalls := 0, storeQueries := 0 })
  else
    match env.embedding with
    | .thrown m => (.error m, { embeddingCalls := 1, storeQueries := 0 })
    | .ok embeddingResult =>
      match embeddingResult.success, embeddingResult.embedding with
      | true, some emb =>
        match env.queryFault with
        | some m => (.error m, { embeddingCalls := 1, storeQueries := 1 })
        | none =>
          let similarRules :=
            findSimilarRules env.dist db.rules emb maxResults.toNat
              similarityThreshold
          if similarRules.length = 0 then
            (.ok [mkText ("No relevant rules found for task description: \"" ++
                taskDescription ++ "\" (similarity threshold: " ++
                toString similarityThreshold ++ ")")],
              { embeddingCalls := 1, storeQueries := 1 })
          else
            (.ok [mkText ("Found " ++ toString similarRules.length ++
                " relevant rules for task: \"" ++ taskDescription ++ "\"\n\n" ++
                String.intercalate "\n" (similarRules.map (fun rule =>
                  "- **" ++ rule.rule_text ++ "** (category: " ++ rule.category ++
                    ", relevance: " ++ toString rule.relevance_score ++ ")")))],
              { embeddingCalls := 1, storeQueries := 1 })
      | _, _ =>
        (.ok [mkText ("Failed to generate embedding for task description: " ++
            showOptUndefined embeddingResult.error)],
          { embeddingCalls := 1, storeQueries := 0 })

/-- `getRelevantRulesHandler`: the body wrapped in the outermost
`catch`. -/
def getRelevantRulesHandler (env : RetrievalEnv) (params : GetParams)
    (db : Db) : List ContentItem × RetrievalTrace :=
  match getRelevantRulesBody env params db with
  | (.ok out, tr) => (out, tr)
  | (.error m, tr) => ([mkText ("Unexpected error: " ++ m)], tr)

/-! ## Concrete sample values (used by the closed theorems below) -/

/-- A fresh, empty database. -/
def db0 : Db :=
  { instructions := [], rules := [], nextInstructionId := 1, nextRuleId := 1 }

/-- Sample `createRule` parameters (the ones of the repository's own
test suite). -/
def params0 : CreateRuleParams :=
  { ruleText := "Use TypeScript for new files", category := "style",
    context := "writing unit tests", createdFromInstructionId := 1 }

/-- A failing embedding result (the mock client's failure). -/
def embResFail : EmbeddingResult :=
  { success := false, embedding := none,
    error := some "Mock embedding generation failed" }

/-- A successful embedding result carrying a 1536-element vector. -/
def embRes1536 : EmbeddingResult :=
  { success := true, embedding := some (List.replicate 1536 0), error := none }

/-- The `Rule` object a successful `createRule db0 embRes1536 params0`
call returns. -/
def createdRule0 : Rule :=
  match createRule db0 embRes1536 none params0 with
  | .ok (r, _) => r
  | .error _ => undefinedRule

/-- A `Generalizable` classifier verdict. -/
def genOkTest : RuleGenerationResult :=
  { success := true,
    rule := some { rule_text := "Test rule", category := "testing" },
    reason := none, error := none }

/-- A `NotGeneralizable` classifier verdict: classification succeeded
(`success: true`) but produced no rule, only a reason. -/
def notGeneralizableResult : RuleGenerationResult :=
  { success := true, rule := none,
    reason := some "Too specific: pixel-level adjustment", error := none }

/-- Intake environment in which classification yields the
`NotGeneralizable` verdict. -/
def envC2 : RememberEnv :=
  { genRule := .ok notGeneralizableResult, createInstructionFault := none,
    embedding := .ok embRes1536, ruleInsertFault := none, updateFault := none }

/-- Intake environment in which classification succeeds and embedding
generation fails. -/
def envEmbFail : RememberEnv :=
  { genRule := .ok genOkTest, createInstructionFault := none,
    embedding := .ok embResFail, ruleInsertFault := none, updateFault := none }

/-- A provider that rejects every attempt. -/
def provThrows : Nat → ProviderResponse := fun _ => .throws "boom"

/-- The error of every `provThrows` attempt. -/
def errsBoom : Nat → String := fun _ => "boom"

/-- A provider that rejects the first attempt and then responds with
an empty result list. -/
def provEmptyAfterOne : Nat → ProviderResponse := fun k =>
  if k < 1 then .throws "e" else .returns []

/-- The error of the first `provEmptyAfterOne` attempt. -/
def errsE : Nat → String := fun _ => "e"

/-- A degenerate storage distance primitive. -/
def distZero : List Rat → List Rat → Rat := fun _ _ => 0

/-- Retrieval environment with a healthy embedding client and store. -/
def envR0 : RetrievalEnv :=
  { embedding := .ok embRes1536, dist := distZero, queryFault := none }

/-- Retrieval parameters whose task description is empty. -/
def emptyTaskParams : GetParams :=
  { taskDescription := "", maxResults := none, similarityThreshold := none }

/-! # Theorems

## Retry loop of `generateEmbedding` -/

/-- When every remaining attempt rejects, the loop uses all its fuel,
sleeps `retryDelay * 2 ^ k` between consecutive attempts, and returns
the exhaustion failure built from the last error. -/
theorem runAttempts_throws_all (provider : Nat → ProviderResponse)
    (errs : Nat → String) (hp : ∀ k, provider k = .throws (errs k))
    (b : Int) (emr : Nat) :
    ∀ (fuel attempt : Nat) (last : Option String),
      attempt + fuel = emr + 1 → 1 ≤ fuel →
      runAttempts provider b emr attempt fuel last =
        { result := { success := false, embedding := none,
                      error := some (exhaustedMsg (emr + 1) (errs emr)) },
          attempts := fuel,
          delays := (List.range' attempt (fuel - 1)).map (fun k => b * 2 ^ k) } := by
  intro fuel
  induction fuel with
  | zero => intro attempt last _ h1; omega
  | succ f ih =>
    intro attempt last hsum _
    by_cases hae : attempt = emr
    · have hf : f = 0 := by omega
      subst hf hae
      simp [runAttempts, hp attempt]
    · have hrec := ih (attempt + 1) (some (errs attempt)) (by omega) (by omega)
      simp only [runAttempts, hp attempt, if_neg hae, hrec]
      have hf1 : f + 1 - 1 = (f - 1) + 1 := by omega
      simp only [hf1, List.range'_succ]
      simp

/-- The loop makes at least one provider call whenever it has fuel. -/
theorem runAttempts_attempts_pos (provider : Nat → ProviderResponse)
    (b : Int) (emr attempt fuel : Nat) (last : Option String)
    (h : 1 ≤ fuel) : 1 ≤ (runAttempts provider b emr attempt fuel last).attempts := by
  obtain ⟨f, rfl⟩ : ∃ f, fuel = f + 1 := ⟨fuel - 1, by omega⟩
  rw [runAttempts]
  cases provider attempt with
  | returns data => cases data <;> simp
  | throws msg =>
    by_cases hae : attempt = emr
    · simp [hae]
    · simp [if_neg hae]

/-- When the attempts up to `j` reject and attempt `j` resolves with
an empty result list, the loop stops right there with the
invalid-format failure. -/
theorem runAttempts_empty_at (provider : Nat → ProviderResponse)
    (errs : Nat → String) (j : Nat)
    (hp1 : ∀ k, k < j → provider k = .throws (errs k))
    (hp2 : provider j = .returns [])
    (b : Int) (emr : Nat) (hj : j ≤ emr) :
    ∀ (fuel attempt : Nat) (last : Option String),
      attempt + fuel = emr + 1 → attempt ≤ j →
      runAttempts provider b emr attempt fuel last =
        { result := { success := false, embedding := none,
                      error := some invalidFormatMsg },
          attempts := j - attempt + 1,
          delays := (List.range' attempt (j - attempt)).map (fun k => b * 2 ^ k) } := by
  intro fuel
  induction fuel with
  | zero => intro attempt last hsum hle; omega
  | succ f ih =>
    intro attempt last hsum hle
    by_cases haj : attempt = j
    · subst haj
      simp [runAttempts, hp2]
    · have hlt : attempt < j := by omega
      have hae : attempt ≠ emr := by omega
      have hrec := ih (attempt + 1) (some (errs attempt)) (by omega) (by omega)
      simp only [runAttempts, hp1 attempt hlt, if_neg hae, hrec]
      have hf1 : j - attempt = (j - (attempt + 1)) + 1 := by omega
      simp only [hf1, List.range'_succ]
      simp

/-- C7 — when every attempt of `generateEmbedding` throws a transient
error, exactly `m + 1` attempts are made (`m` the configured maximum
of additional retries), the delay inserted between attempt `k` and
`k + 1` is `retryDelay * 2 ^ k` for `k = 0, …, m - 1`, and the final
result is a failure whose message reports the total attempt count
`m + 1` and the last underlying error. -/
theorem generateEmbedding_exhausts_all_attempts (m : Nat) (b : Int)
    (provider : Nat → ProviderResponse) (errs : Nat → String)
    (hp : ∀ k, provider k = .throws (errs k)) :
    (generateEmbedding provider (m : Int) b).attempts = m + 1 ∧
    (generateEmbedding provider (m : Int) b).delays =
      (List.range m).map (fun k => b * 2 ^ k) ∧
    (generateEmbedding provider (m : Int) b).result.success = false ∧
    (generateEmbedding provider (m : Int) b).result.error =
      some (exhaustedMsg (m + 1) (errs m)) := by
  have hemr : effectiveMaxRetries (m : Int) = m := by
    simp [effectiveMaxRetries]
  have h := runAttempts_throws_all provider errs hp b m (m + 1) 0 none
    (by omega) (by omega)
  unfold generateEmbedding
  rw [hemr, h]
  refine ⟨rfl, ?_, rfl, rfl⟩
  simp [List.range_eq_range']

/-- Witness for C7 at `m = 2`, `b = 100`: three attempts, delays 100
and 200 ms, failure message "after 3 attempts" with last error. -/
theorem generateEmbedding_exhausts_all_attempts_witness :
    (generateEmbedding provThrows ((2 : Nat) : Int) 100).attempts = 2 + 1 ∧
    (generateEmbedding provThrows ((2 : Nat) : Int) 100).delays =
      (List.range 2).map (fun k => (100 : Int) * 2 ^ k) ∧
    (generateEmbedding provThrows ((2 : Nat) : Int) 100).result.success = false ∧
    (generateEmbedding provThrows ((2 : Nat) : Int) 100).result.error =
      some (exhaustedMsg (2 + 1) (errsBoom 2)) :=
  generateEmbedding_exhausts_all_attempts 2 100 provThrows errsBoom (fun _ => rfl)

/-- C8 — a provider response without vector data (empty result list)
at attempt `j` is a final failure: the call stops after `j + 1`
attempts with the invalid-format error, performing no further retry no
matter how many retries (`m - j`) remain. -/
theorem generateEmbedding_invalid_response_final (m j : Nat) (b : Int)
    (provider : Nat → ProviderResponse) (errs : Nat → String)
    (hj : j ≤ m) (hp1 : ∀ k, k < j → provider k = .throws (errs k))
    (hp2 : provider j = .returns []) :
    (generateEmbedding provider (m : Int) b).attempts = j + 1 ∧
    (generateEmbedding provider (m : Int) b).result =
      { success := false, embedding := none, error := some invalidFormatMsg } ∧
    (generateEmbedding provider (m : Int) b).delays =
      (List.range j).map (fun k => b * 2 ^ k) := by
  have hemr : effectiveMaxRetries (m : Int) = m := by
    simp [effectiveMaxRetries]
  have h := runAttempts_empty_at provider errs j hp1 hp2 b m hj (m + 1) 0 none
    (by omega) (by omega)
  unfold generateEmbedding
  rw [hemr, h]
  refine ⟨by simp, rfl, ?_⟩
  simp [List.range_eq_range']

/-- Witness for C8 at `m = 3`, `j = 1`: the first attempt throws, the
second returns an empty list; two attempts total, one delay, final
invalid-format failure although two retries remained. -/
theorem generateEmbedding_invalid_response_final_witness :
    (generateEmbedding provEmptyAfterOne ((3 : Nat) : Int) 100).attempts = 1 + 1 ∧
    (generateEmbedding provEmptyAfterOne ((3 : Nat) : Int) 100).result =
      { success := false, embedding := none, error := some invalidFormatMsg } ∧
    (generateEmbedding provEmptyAfterOne ((3 : Nat) : Int) 100).delays =
      (List.range 1).map (fun k => (100 : Int) * 2 ^ k) :=
  generateEmbedding_invalid_response_final 3 1 100 provEmptyAfterOne errsE
    (by omega) (fun k hk => by simp [provEmptyAfterOne, hk, errsE]) rfl

/-- C10 — `generateEmbedding` clamps the configured retry budget to
`max 0 maxRetries`: at least one attempt is always made, and when every
attempt throws it makes exactly `max 0 maxRetries + 1` attempts and
reports that count ("after 1 attempts" for negative configurations). -/
theorem generateEmbedding_clamps_maxRetries (m : Int) (b : Int)
    (provider : Nat → ProviderResponse) (errs : Nat → String)
    (hp : ∀ k, provider k = .throws (errs k)) :
    (generateEmbedding provider m b).attempts = (max 0 m).toNat + 1 ∧
    (generateEmbedding provider m b).result.error =
      some (exhaustedMsg ((max 0 m).toNat + 1) (errs ((max 0 m).toNat))) ∧
    (m < 0 → (generateEmbedding provider m b).attempts = 1) ∧
    (∀ p2 : Nat → ProviderResponse, 1 ≤ (generateEmbedding p2 m b).attempts) := by
  have h := runAttempts_throws_all provider errs hp b (effectiveMaxRetries m)
    (effectiveMaxRetries m + 1) 0 none (by omega) (by omega)
  have hemr : effectiveMaxRetries m = (max 0 m).toNat := rfl
  unfold generateEmbedding
  rw [h, hemr]
  refine ⟨rfl, rfl, ?_, ?_⟩
  · intro hm
    have h0 : max 0 m = 0 := max_eq_left hm.le
    simp [h0]
  · intro p2
    exact runAttempts_attempts_pos p2 b (effectiveMaxRetries m) 0
      (effectiveMaxRetries m + 1) none (by omega)

/-- Witness for C10 at `m = -1`: a single attempt, message "after 1
attempts". -/
theorem generateEmbedding_clamps_maxRetries_witness :
    (generateEmbedding provThrows (-1) 100).attempts = (max 0 (-1 : Int)).toNat + 1 ∧
    (generateEmbedding provThrows (-1) 100).result.error =
      some (exhaustedMsg ((max 0 (-1 : Int)).toNat + 1)
        (errsBoom ((max 0 (-1 : Int)).toNat))) ∧
    ((-1 : Int) < 0 → (generateEmbedding provThrows (-1) 100).attempts = 1) ∧
    (∀ p2 : Nat → ProviderResponse,
      1 ≤ (generateEmbedding p2 (-1) 100).attempts) :=
  generateEmbedding_clamps_maxRetries (-1) 100 provThrows errsBoom (fun _ => rfl)

/-! ## Rule store -/

/-- C1 — when the embedding generator returns a failure, `createRule`
throws an error wrapping the embedding failure and the rule table is
unchanged (no row inserted). -/
theorem createRule_embedding_failure_no_insert (db : Db)
    (embRes : EmbeddingResult) (fault : Option String)
    (params : CreateRuleParams) (h : embRes.success = false) :
    createRule db embRes fault params =
      .error ("Failed to generate embedding: " ++ showOptUndefined embRes.error) ∧
    rulesAfterCreateRule db embRes fault params = db.rules := by
  obtain ⟨s, emb, err⟩ := embRes
  cases h
  cases emb <;> simp [createRule, rulesAfterCreateRule]

/-- Witness for C1: the mock client's failure against the empty
database. -/
theorem createRule_embedding_failure_no_insert_witness :
    createRule db0 embResFail none params0 =
      .error ("Failed to generate embedding: " ++ showOptUndefined embResFail.error) ∧
    rulesAfterCreateRule db0 embResFail none params0 = db0.rules :=
  createRule_embedding_failure_no_insert db0 embResFail none params0 rfl

/-- C4 (counterexample) — a successful `createRule` call whose
returned `Rule` has no embedding: `findRuleById`, which produces the
returned object, does not select the `embedding` column, so the
claimed "embedding field is present with 1536 elements" is false even
though the generator produced a 1536-element vector. -/
theorem createRule_returned_embedding_absent :
    (createRule db0 embRes1536 none params0).isOk = true ∧
    createdRule0.embedding = none :=
  ⟨rfl, rfl⟩

/-- After inserting a fresh row at the end of the rule table,
`findRuleById` retrieves exactly its projection. -/
theorem findRuleById_insert (db : Db) (row : RuleRow)
    (hwf : ∀ r ∈ db.rules, r.id < db.nextRuleId)
    (hid : row.id = db.nextRuleId) :
    findRuleById
      { db with rules := db.rules ++ [row], nextRuleId := db.nextRuleId + 1 }
      db.nextRuleId = some (projRule row) := by
  unfold findRuleById
  have h1 : db.rules.find? (fun r => r.id == db.nextRuleId) = none := by
    rw [List.find?_eq_none]
    intro x hx
    simp only [beq_iff_eq]
    exact Nat.ne_of_lt (hwf x hx)
  simp [List.find?_append, h1, hid]

/-- C4 (amended) — for every successful `createRule` call the stored
row carries the generated embedding (1536 elements whenever the
generator produced 1536), and the returned `Rule` is populated from
that row except for the `embedding` field, which is absent because the
`findRuleById` SELECT omits that column. -/
theorem createRule_stores_embedding_row (db : Db) (hwf : DbWf db)
    (e : List Rat) (err : Option String) (params : CreateRuleParams)
    (he : e.length = 1536) :
    ∃ rule db1 row,
      createRule db { success := true, embedding := some e, error := err }
          none params = .ok (rule, db1) ∧
      db1.rules = db.rules ++ [row] ∧
      db1.instructions = db.instructions ∧
      row.embedding = e ∧ row.embedding.length = 1536 ∧
      row.rule_text = params.ruleText ∧ row.category = params.category ∧
      row.context = params.context ∧
      row.created_from_instruction_id = some params.createdFromInstructionId ∧
      row.instructions_count = 1 ∧
      rule = projRule row ∧ rule.embedding = none := by
  have hfind := findRuleById_insert db
    { id := db.nextRuleId, rule_text := params.ruleText,
      category := params.category, context := params.context,
      relevance_score := some 1, embedding := e,
      created_from_instruction_id := some params.createdFromInstructionId,
      last_applied := none, instructions_count := 1, inserted_at := 0 }
    hwf.1 rfl
  exact ⟨projRule
      { id := db.nextRuleId, rule_text := params.ruleText,
        category := params.category, context := params.context,
        relevance_score := some 1, embedding := e,
        created_from_instruction_id := some params.createdFromInstructionId,
        last_applied := none, instructions_count := 1, inserted_at := 0 },
    { db with
        rules := db.rules ++
          [{ id := db.nextRuleId, rule_text := params.ruleText,
             category := params.category, context := params.context,
             relevance_score := some 1, embedding := e,
             created_from_instruction_id := some params.createdFromInstructionId,
             last_applied := none, instructions_count := 1, inserted_at := 0 }],
        nextRuleId := db.nextRuleId + 1 },
    { id := db.nextRuleId, rule_text := params.ruleText,
      category := params.category, context := params.context,
      relevance_score := some 1, embedding := e,
      created_from_instruction_id := some params.createdFromInstructionId,
      last_applied := none, instructions_count := 1, inserted_at := 0 },
    by simp only [createRule]; rw [hfind]; rfl,
    rfl, rfl, rfl, he, rfl, rfl, rfl, rfl, rfl, rfl, rfl⟩

/-- Witness for C4 (amended): a concrete 1536-element embedding stored
and returned against the empty database. -/
theorem createRule_stores_embedding_row_witness :
    ∃ rule db1 row,
      createRule db0
          { success := true, embedding := some (List.replicate 1536 0),
            error := none } none params0 = .ok (rule, db1) ∧
      db1.rules = db0.rules ++ [row] ∧
      db1.instructions = db0.instructions ∧
      row.embedding = List.replicate 1536 (0 : Rat) ∧
      row.embedding.length = 1536 ∧
      row.rule_text = params0.ruleText ∧ row.category = params0.category ∧
      row.context = params0.context ∧
      row.created_from_instruction_id = some params0.createdFromInstructionId ∧
      row.instructions_count = 1 ∧
      rule = projRule row ∧ rule.embedding = none :=
  createRule_stores_embedding_row db0 (by decide) (List.replicate 1536 0) none
    params0 (by rw [List.length_replicate])

/-! ## Intake pipeline -/

/-- C2 — behaviour of the intake handler on a `NotGeneralizable`
verdict (classification succeeded, `rule` is null, a reason is given):
nothing is written to either store (the database is returned
untouched), but the response is the failure-branch message
"Failed to generate abstract rule: null" — it neither reports the
verdict's reason nor reads as a normal outcome, although the
repository's own test expects "No rule generated." here. -/
theorem notGeneralizable_treated_as_failure :
    rememberDeveloperInstructionHandler envC2 "Move the button 3 px right"
        "UI tweak" db0 =
      ([mkText "Failed to generate abstract rule: null"], db0) := rfl

/-- C5 — when the instruction row has been created and rule creation
then fails (embedding generation, or the INSERT), the pipeline ends
with the rule-creation failure message, the instruction row stays in
the store with `rule_id` unset, and no rule row is added. -/
theorem ruleFailure_leaves_instruction_row (env : RememberEnv)
    (instr ctx : String) (db : Db) (rgr : RuleGenerationResult)
    (draft : RuleDraft)
    (h1 : env.genRule = .ok rgr) (h2 : rgr.success = true)
    (h3 : rgr.rule = some draft) (h4 : env.createInstructionFault = none)
    (h5 : ∀ (d : Db) (p : CreateRuleParams), ∃ m, createRuleCall env d p = .error m) :
    ∃ m db1,
      rememberDeveloperInstructionHandler env instr ctx db =
        ([mkText ("Failed to create rule with embedding: " ++ m)], db1) ∧
      db1.instructions = db.instructions ++
        [{ id := db.nextInstructionId, instruction := instr, context := ctx,
           inserted_at := 0, rule_id := none }] ∧
      db1.rules = db.rules := by
  obtain ⟨m, hm⟩ := h5 (createInstruction db instr ctx).2
    { ruleText := draft.rule_text, category := draft.category, context := ctx,
      createdFromInstructionId := (createInstruction db instr ctx).1.id }
  refine ⟨m, (createInstruction db instr ctx).2, ?_, ?_, ?_⟩
  · unfold rememberDeveloperInstructionHandler rememberBody
    rw [h1]
    simp only [h2, h3, h4, hm]
  · simp [createInstruction]
  · simp [createInstruction]

/-- Witness for C5: the mock embedding failure after a successful
classification, against the empty database. -/
theorem ruleFailure_leaves_instruction_row_witness :
    ∃ m db1,
      rememberDeveloperInstructionHandler envEmbFail
          "Always use TypeScript for new files" "writing unit tests" db0 =
        ([mkText ("Failed to create rule with embedding: " ++ m)], db1) ∧
      db1.instructions = db0.instructions ++
        [{ id := db0.nextInstructionId,
           instruction := "Always use TypeScript for new files",
           context := "writing unit tests", inserted_at := 0,
           rule_id := none }] ∧
      db1.rules = db0.rules :=
  ruleFailure_leaves_instruction_row envEmbFail
    "Always use TypeScript for new files" "writing unit tests" db0 genOkTest
    { rule_text := "Test rule", category := "testing" } rfl rfl rfl rfl
    (fun _ _ => ⟨_, rfl⟩)

/-- Every branch of the intake handler produces a single text item. -/
theorem rememberHandler_shape (env : RememberEnv) (instr ctx : String)
    (db : Db) :
    ∃ t d, rememberDeveloperInstructionHandler env instr ctx db =
      ([mkText t], d) := by
  obtain ⟨g, cif, emb, rif, uf⟩ := env
  cases g with
  | thrown m2 => exact ⟨_, _, rfl⟩
  | ok rgr =>
    obtain ⟨s, orule, rsn, oerr⟩ := rgr
    cases s with
    | false => cases orule <;> exact ⟨_, _, rfl⟩
    | true =>
      cases orule with
      | none => exact ⟨_, _, rfl⟩
      | some draft =>
        cases cif with
        | some m2 => exact ⟨_, _, rfl⟩
        | none =>
          cases emb with
          | thrown m2 => exact ⟨_, _, rfl⟩
          | ok er =>
            obtain ⟨es, ee, eerr⟩ := er
            cases es with
            | false => cases ee <;> exact ⟨_, _, rfl⟩
            | true =>
              cases ee with
              | none => exact ⟨_, _, rfl⟩
              | some v =>
                cases rif with
                | some m2 => exact ⟨_, _, rfl⟩
                | none =>
                  cases uf with
                  | some m2 => exact ⟨_, _, rfl⟩
                  | none => exact ⟨_, _, rfl⟩

/-- Every branch of the retrieval body is either a single text item or
an exception for the outer catch. -/
theorem getRelevantRulesBody_shape (renv : RetrievalEnv)
    (gparams : GetParams) (db2 : Db) :
    (∃ t tr, getRelevantRulesBody renv gparams db2 = (.ok [mkText t], tr)) ∨
    (∃ m tr, getRelevantRulesBody renv gparams db2 = (.error m, tr)) := by
  unfold getRelevantRulesBody
  dsimp only
  repeat' split
  all_goals
    first
      | exact Or.inl ⟨_, _, rfl⟩
      | exact Or.inr ⟨_, _, rfl⟩

/-- C9 — both public operations always return a structured result:
a single text content item, for every fault environment (including
environments in which the classifier, the embedding client or the
store throws); a thrown classifier call, reaching the outermost catch,
is converted into the labelled "Unexpected error" message, as is a
thrown embedding call in the retrieval handler. -/
theorem handlers_never_throw (env : RememberEnv) (instr ctx : String)
    (db : Db) (renv : RetrievalEnv) (gparams : GetParams) (db2 : Db)
    (m : String) :
    (∃ t d, rememberDeveloperInstructionHandler env instr ctx db =
      ([mkText t], d)) ∧
    (∃ t tr, getRelevantRulesHandler renv gparams db2 = ([mkText t], tr)) ∧
    (rememberDeveloperInstructionHandler
        { env with genRule := .thrown m } instr ctx db).1 =
      [mkText ("Unexpected error: " ++ m)] ∧
    (getRelevantRulesHandler { renv with embedding := .thrown m }
        { taskDescription := "task", maxResults := none,
          similarityThreshold := none } db2).1 =
      [mkText ("Unexpected error: " ++ m)] := by
  refine ⟨rememberHandler_shape env instr ctx db, ?_, rfl, ?_⟩
  · rcases getRelevantRulesBody_shape renv gparams db2 with
      ⟨t, tr, h⟩ | ⟨m2, tr, h⟩
    · exact ⟨t, tr, by unfold getRelevantRulesHandler; rw [h]⟩
    · exact ⟨"Unexpected error: " ++ m2, tr,
        by unfold getRelevantRulesHandler; rw [h]⟩
  · rfl

/-! ## Retrieval validation and similarity search -/

/-- C6 — when the task description is empty after trimming, or
`maxResults` lies outside `[1, 100]`, or `similarityThreshold` lies
outside `[-1, 1]`, the retrieval handler returns one of the three
validation-error messages and performs no external call: zero
embedding-generator invocations and zero store queries. -/
theorem getRelevantRules_validation_no_calls (env : RetrievalEnv)
    (params : GetParams) (db : Db)
    (h : jsTrim params.taskDescription = "" ∨
      (params.maxResults.getD 5) < 1 ∨ (params.maxResults.getD 5) > 100 ∨
      (params.similarityThreshold.getD 0) < -1 ∨
      (params.similarityThreshold.getD 0) > 1) :
    ∃ t, getRelevantRulesHandler env params db =
        ([mkText t], { embeddingCalls := 0, storeQueries := 0 }) ∧
      (t = "Error: taskDescription cannot be empty" ∨
       t = "Error: maxResults must be between 1 and 100" ∨
       t = "Error: similarityThreshold must be between -1 and 1") := by
  unfold getRelevantRulesHandler getRelevantRulesBody
  dsimp only
  by_cases h1 : jsTrim params.taskDescription = ""
  · rw [if_pos h1]
    exact ⟨_, rfl, Or.inl rfl⟩
  · rw [if_neg h1]
    by_cases h2 : params.maxResults.getD 5 < 1 ∨ params.maxResults.getD 5 > 100
    · rw [if_pos h2]
      exact ⟨_, rfl, Or.inr (Or.inl rfl)⟩
    · rw [if_neg h2]
      have h3 : params.similarityThreshold.getD 0 < -1 ∨
          params.similarityThreshold.getD 0 > 1 := by
        rcases h with h | h | h | h | h
        · exact absurd h h1
        · exact absurd (Or.inl h) h2
        · exact absurd (Or.inr h) h2
        · exact Or.inl h
        · exact Or.inr h
      rw [if_pos h3]
      exact ⟨_, rfl, Or.inr (Or.inr rfl)⟩

/-- Witness for C6: the empty task description on the healthy
environment. -/
theorem getRelevantRules_validation_no_calls_witness :
    ∃ t, getRelevantRulesHandler envR0 emptyTaskParams db0 =
        ([mkText t], { embeddingCalls := 0, storeQueries := 0 }) ∧
      (t = "Error: taskDescription cannot be empty" ∨
       t = "Error: maxResults must be between 1 and 100" ∨
       t = "Error: similarityThreshold must be between -1 and 1") :=
  getRelevantRules_validation_no_calls envR0 emptyTaskParams db0 (Or.inl rfl)

/-- C3 — `findSimilarRules` returns only rows scoring
`1 - dist(embedding, query) ≥ threshold`, in descending score order,
with at most `limit` results — exactly `limit` whenever at least
`limit` rows qualify — every result scored from a table row, and the
empty list (not an error) when no row qualifies, in particular when
the table is empty. -/
theorem findSimilarRules_spec (dist : List Rat → List Rat → Rat)
    (rules : List RuleRow) (q : List Rat) (limit : Nat) (threshold : Rat) :
    (∀ rr ∈ findSimilarRules dist rules q limit threshold,
        threshold ≤ rr.relevance_score) ∧
    List.Pairwise (fun a b => b.relevance_score ≤ a.relevance_score)
      (findSimilarRules dist rules q limit threshold) ∧
    (findSimilarRules dist rules q limit threshold).length ≤ limit ∧
    (limit ≤ ((rules.map (scoreRow dist q)).filter
        (fun rr => decide (threshold ≤ rr.relevance_score))).length →
      (findSimilarRules dist rules q limit threshold).length = limit) ∧
    (∀ rr ∈ findSimilarRules dist rules q limit threshold,
        ∃ r ∈ rules, rr = scoreRow dist q r) ∧
    ((rules.map (scoreRow dist q)).filter
        (fun rr => decide (threshold ≤ rr.relevance_score)) = [] →
      findSimilarRules dist rules q limit threshold = []) ∧
    (rules = [] → findSimilarRules dist rules q limit threshold = []) := by
  unfold findSimilarRules
  have hmem : ∀ rr ∈ (((rules.map (scoreRow dist q)).filter
      (fun rr => decide (threshold ≤ rr.relevance_score))).mergeSort
        (fun a b => decide (b.relevance_score ≤ a.relevance_score))).take limit,
      rr ∈ (rules.map (scoreRow dist q)).filter
        (fun rr => decide (threshold ≤ rr.relevance_score)) := by
    intro rr hrr
    exact List.mem_mergeSort.mp (List.take_subset _ _ hrr)
  refine ⟨?_, ?_, ?_, ?_, ?_, ?_, ?_⟩
  · intro rr hrr
    have h2 := (List.mem_filter.mp (hmem rr hrr)).2
    exact of_decide_eq_true h2
  · have htrans : ∀ a b c : RelevantRule,
        decide (b.relevance_score ≤ a.relevance_score) = true →
        decide (c.relevance_score ≤ b.relevance_score) = true →
        decide (c.relevance_score ≤ a.relevance_score) = true := by
      intro a b c hab hbc
      simp only [decide_eq_true_eq] at hab hbc ⊢
      exact le_trans hbc hab
    have htotal : ∀ a b : RelevantRule,
        (decide (b.relevance_score ≤ a.relevance_score) ||
          decide (a.relevance_score ≤ b.relevance_score)) = true := by
      intro a b
      simp only [Bool.or_eq_true, decide_eq_true_eq]
      exact le_total _ _
    have hsorted := List.sorted_mergeSort htrans htotal
      ((rules.map (scoreRow dist q)).filter
        (fun rr => decide (threshold ≤ rr.relevance_score)))
    have hp := List.Pairwise.sublist (List.take_sublist limit _) hsorted
    exact hp.imp (fun h => of_decide_eq_true h)
  · rw [List.length_take]
    exact min_le_left _ _
  · intro hl
    rw [List.length_take, List.length_mergeSort]
    omega
  · intro rr hrr
    have h2 := (List.mem_filter.mp (hmem rr hrr)).1
    obtain ⟨r, hr, heq⟩ := List.mem_map.mp h2
    exact ⟨r, hr, heq.symm⟩
  · intro hq
    rw [hq]
    simp
  · intro hrules
    subst hrules
    simp

/-- Witness for C3 at a concrete table, query, limit and threshold. -/
theorem findSimilarRules_spec_witness :
    (∀ rr ∈ findSimilarRules distZero [] [] 5 0,
        (0 : Rat) ≤ rr.relevance_score) ∧
    List.Pairwise (fun a b : RelevantRule =>
        b.relevance_score ≤ a.relevance_score)
      (findSimilarRules distZero [] [] 5 0) ∧
    (findSimilarRules distZero [] [] 5 0).length ≤ 5 ∧
    (5 ≤ ((([] : List RuleRow).map (scoreRow distZero [])).filter
        (fun rr => decide ((0 : Rat) ≤ rr.relevance_score))).length →
      (findSimilarRules distZero [] [] 5 0).length = 5) ∧
    (∀ rr ∈ findSimilarRules distZero [] [] 5 0,
        ∃ r ∈ ([] : List RuleRow), rr = scoreRow distZero [] r) ∧
    ((([] : List RuleRow).map (scoreRow distZero [])).filter
        (fun rr => decide ((0 : Rat) ≤ rr.relevance_score)) = [] →
      findSimilarRules distZero [] [] 5 0 = []) ∧
    (([] : List RuleRow) = [] → findSimilarRules distZero [] [] 5 0 = []) :=
  findSimilarRules_spec distZero [] [] 5 0

end Langoustine
